import Mathlib

/-!
Shallow embedding of `wpilib/pidcontroller.py` (`PIDController`).

The controller's mutable attributes become fields of `PIDState`; the
methods become pure functions on that state.  Calls to the external
`OutputSink` are modelled by returning the written values alongside the
new state, and the process-variable read (`pidInput.pidGet()`), the
source kind (`pidInput.getPIDSourceType()`), and the attachment of the
input/output collaborators are passed as explicit parameters.  Python
floats are modelled by `ℚ`; every division in the source is guarded by a
zero test, so `ℚ`'s total division never diverges from the code.
-/

namespace PIDController

/-- `PIDSource.PIDSourceType`: the declared kind of the input source. -/
inductive PIDSourceType where
  | kDisplacement
  | kRate
  deriving DecidableEq, Repr

/-- The tolerance strategy installed on the controller.  In the source it
is the `onTarget` attribute: the class-level method that raises until
`setAbsoluteTolerance` or `setPercentTolerance` replaces it with a
closure over the given threshold. -/
inductive Tolerance where
  | unset
  | absolute (value : ℚ)
  | percentage (percentage : ℚ)
  deriving DecidableEq, Repr

/-- The mutable attributes of a `PIDController` instance.  `buf` is the
`deque(maxlen=bufMaxlen)` holding recent error samples, oldest first;
`setpointTimer` is the value `self.setpointTimer.get()` would return
(elapsed time since the last timer reset). -/
structure PIDState where
  P : ℚ
  I : ℚ
  D : ℚ
  F : ℚ
  maximumOutput : ℚ
  minimumOutput : ℚ
  maximumInput : ℚ
  minimumInput : ℚ
  continuous : Bool
  enabled : Bool
  prevError : ℚ
  totalError : ℚ
  buf : List ℚ
  bufMaxlen : ℕ
  setpoint : ℚ
  prevSetpoint : ℚ
  error : ℚ
  result : ℚ
  setpointTimer : ℚ
  tolerance : Tolerance
  deriving DecidableEq, Repr

/-- The attribute values established by `__init__` (gains and period
aside). -/
def initialState (Kp Ki Kd Kf : ℚ) : PIDState :=
  { P := Kp, I := Ki, D := Kd, F := Kf
    maximumOutput := 1, minimumOutput := -1
    maximumInput := 0, minimumInput := 0
    continuous := false, enabled := false
    prevError := 0, totalError := 0
    buf := [], bufMaxlen := 1
    setpoint := 0, prevSetpoint := 0
    error := 0, result := 0
    setpointTimer := 0, tolerance := .unset }

/-- `PIDController.clamp(value, low, high)`. -/
def clamp (value low high : ℚ) : ℚ :=
  max low (min value high)

/-- `PIDController.getContinuousError(error)`: wraps the error around
for continuous inputs; reads `continuous`, `maximumInput` and
`minimumInput` from the state. -/
def getContinuousError (st : PIDState) (error : ℚ) : ℚ :=
  if st.continuous = true ∧ |error| > (st.maximumInput - st.minimumInput) / 2 then
    if error > 0 then
      error - (st.maximumInput - st.minimumInput)
    else
      error + (st.maximumInput - st.minimumInput)
  else
    error

/-- `PIDController.getDeltaSetpoint()`: setpoint change rate; the guard
`if t:` in the source tests the timer value against zero. -/
def getDeltaSetpoint (st : PIDState) : ℚ :=
  if st.setpointTimer ≠ 0 then
    (st.setpoint - st.prevSetpoint) / st.setpointTimer
  else
    0

/-- `PIDController.calculateFeedForward()`: the returned value together
with the state left behind (the displacement branch assigns
`prevSetpoint` and resets the setpoint timer before returning). -/
def calculateFeedForward (st : PIDState) (srcType : PIDSourceType) : ℚ × PIDState :=
  match srcType with
  | .kRate => (st.F * st.setpoint, st)
  | .kDisplacement =>
      let temp := st.F * getDeltaSetpoint st
      (temp, { st with prevSetpoint := st.setpoint, setpointTimer := 0 })

/-- `self.buf.append(e)` on a `deque` with `maxlen = st.bufMaxlen`:
appends on the right, discarding from the left when full. -/
def bufAppend (st : PIDState) (e : ℚ) : PIDState :=
  let b := st.buf ++ [e]
  { st with buf := b.drop (b.length - st.bufMaxlen) }

/-- `PIDController._calculate()`: one compute tick.  `hasInput` and
`hasOutput` model `self.pidInput is not None` / `self.pidOutput is not
None`; `srcType` is `self.pidInput.getPIDSourceType()` and `input` the
value `pidInput.pidGet()` returns.  The second component is the value
written to the output sink, when one is written. -/
def _calculate (st : PIDState) (hasInput hasOutput : Bool)
    (srcType : PIDSourceType) (input : ℚ) : PIDState × Option ℚ :=
  if hasInput = false then (st, none)
  else if hasOutput = false then (st, none)
  else if st.enabled = false then (st, none)
  else
    let error := getContinuousError st (st.setpoint - input)
    let st1 : PIDState := { st with error := error }
    match srcType with
    | .kRate =>
        let totalError :=
          if st1.P ≠ 0 then
            clamp (st1.totalError + error)
              (st1.minimumOutput / st1.P) (st1.maximumOutput / st1.P)
          else st1.totalError
        let st2 : PIDState := { st1 with totalError := totalError }
        let ff := calculateFeedForward st2 .kRate
        let result0 := st2.P * st2.totalError + st2.D * error + ff.1
        let st3 : PIDState :=
          { ff.2 with prevError := error,
                      result := clamp result0 st2.minimumOutput st2.maximumOutput }
        (bufAppend st3 error, some st3.result)
    | .kDisplacement =>
        let totalError :=
          if st1.I ≠ 0 then
            clamp (st1.totalError + error)
              (st1.minimumOutput / st1.I) (st1.maximumOutput / st1.I)
          else st1.totalError
        let st2 : PIDState := { st1 with totalError := totalError }
        let ff := calculateFeedForward st2 .kDisplacement
        let result0 := st2.P * error + st2.I * st2.totalError +
          st2.D * (error - st2.prevError) + ff.1
        let st3 : PIDState :=
          { ff.2 with prevError := error,
                      result := clamp result0 st2.minimumOutput st2.maximumOutput }
        (bufAppend st3 error, some st3.result)

/-- `PIDController.setSetpoint(setpoint)`. -/
def setSetpoint (st : PIDState) (setpoint : ℚ) : PIDState :=
  let newsetpoint :=
    if st.maximumInput > st.minimumInput then
      if setpoint > st.maximumInput then st.maximumInput
      else if setpoint < st.minimumInput then st.minimumInput
      else setpoint
    else setpoint
  { st with setpoint := newsetpoint, buf := [], totalError := 0 }

/-- `PIDController.setInputRange(minimumInput, maximumInput)`: raises
`ValueError` when the lower bound exceeds the upper one, otherwise
stores the bounds and re-applies the current setpoint. -/
def setInputRange (st : PIDState) (minimumInput maximumInput : ℚ) :
    Except String PIDState :=
  if minimumInput > maximumInput then
    .error "Lower bound is greater than upper bound"
  else
    .ok (setSetpoint
      { st with minimumInput := minimumInput, maximumInput := maximumInput }
      st.setpoint)

/-- `PIDController.setOutputRange(minimumOutput, maximumOutput)`. -/
def setOutputRange (st : PIDState) (minimumOutput maximumOutput : ℚ) :
    Except String PIDState :=
  if minimumOutput > maximumOutput then
    .error "Lower bound is greater than upper bound"
  else
    .ok { st with minimumOutput := minimumOutput, maximumOutput := maximumOutput }

/-- `PIDController.setToleranceBuffer(bufLength)`: rebuilds the deque
from `islice(self.buf, bufLength)` — the first `bufLength` entries of
the old deque — with the new `maxlen`. -/
def setToleranceBuffer (st : PIDState) (bufLength : ℕ) : PIDState :=
  { st with buf := st.buf.take bufLength, bufMaxlen := bufLength }

/-- `PIDController.getAvgError()`. -/
def getAvgError (st : PIDState) : ℚ :=
  if st.buf.length = 0 then 0 else st.buf.sum / st.buf.length

/-- `PIDController.isAvgErrorValid()`. -/
def isAvgErrorValid (st : PIDState) : Bool :=
  st.buf.length ≠ 0

/-- `PIDController.setAbsoluteTolerance(absvalue)`. -/
def setAbsoluteTolerance (st : PIDState) (absvalue : ℚ) : PIDState :=
  { st with tolerance := .absolute absvalue }

/-- `PIDController.setPercentTolerance(percentage)`. -/
def setPercentTolerance (st : PIDState) (percentage : ℚ) : PIDState :=
  { st with tolerance := .percentage percentage }

/-- `PIDController.onTarget()`: raises until a tolerance is installed;
afterwards evaluates the installed closure
(`AbsoluteTolerance_onTarget` / `PercentageTolerance_onTarget`). -/
def onTarget (st : PIDState) : Except String Bool :=
  match st.tolerance with
  | .unset =>
      .error "No tolerance value set when using PIDController.onTarget()"
  | .absolute value =>
      .ok (isAvgErrorValid st && decide (|getAvgError st| < value))
  | .percentage percentage =>
      .ok (isAvgErrorValid st &&
        decide (|getAvgError st| <
          percentage / 100 * (st.maximumInput - st.minimumInput)))

/-- `PIDController.enable()`. -/
def enable (st : PIDState) : PIDState :=
  { st with enabled := true }

/-- `PIDController.disable()`: writes zero to the output sink, then
clears the enabled flag.  The second component lists the values written
to the sink during the call. -/
def disable (st : PIDState) : PIDState × List ℚ :=
  ({ st with enabled := false }, [0])

/-- `PIDController.reset()`: `disable()` followed by zeroing
`prevError`, `totalError` and `result`. -/
def reset (st : PIDState) : PIDState × List ℚ :=
  let d := disable st
  ({ d.1 with prevError := 0, totalError := 0, result := 0 }, d.2)

/-- A controller with continuous input enabled over the range
`[0, 360]`, as in the spec's wraparound examples. -/
def st360 : PIDState :=
  { initialState 1 0 0 0 with
      continuous := true, minimumInput := 0, maximumInput := 360 }

theorem clamp_mem (value low high : ℚ) (h : low ≤ high) :
    low ≤ clamp value low high ∧ clamp value low high ≤ high :=
  ⟨le_max_left _ _, max_le h (min_le_right _ _)⟩

theorem getContinuousError_wrap (st : PIDState) (e : ℚ)
    (hc : st.continuous = true)
    (hgt : |e| > (st.maximumInput - st.minimumInput) / 2) :
    getContinuousError st e =
      (if e > 0 then e - (st.maximumInput - st.minimumInput)
       else e + (st.maximumInput - st.minimumInput)) := by
  rw [getContinuousError, if_pos ⟨hc, hgt⟩]

theorem getContinuousError_wrap_pos (st : PIDState) (e : ℚ)
    (hc : st.continuous = true) (hpos : e > 0)
    (hgt : e > (st.maximumInput - st.minimumInput) / 2) :
    getContinuousError st e = e - (st.maximumInput - st.minimumInput) := by
  rw [getContinuousError_wrap st e hc (by rw [abs_of_pos hpos]; exact hgt),
    if_pos hpos]

theorem getContinuousError_wrap_neg (st : PIDState) (e : ℚ)
    (hc : st.continuous = true) (hneg : e < 0)
    (hgt : -e > (st.maximumInput - st.minimumInput) / 2) :
    getContinuousError st e = e + (st.maximumInput - st.minimumInput) := by
  rw [getContinuousError_wrap st e hc (by rw [abs_of_neg hneg]; exact hgt),
    if_neg (by linarith)]

end PIDController

open PIDController

/-- C3: `getContinuousError` depends only on the error, the continuous
flag and the input bounds; with `continuous = false` it returns the
error unchanged; with `continuous = true` and
`|error| > (inputMax - inputMin)/2` it subtracts the input range from a
positive error and adds it otherwise, which (for a well-ordered input
range) never increases the magnitude — the shorter signed path around
the wrap boundary; on the range `[0, 360]` an error of `200` maps to
`-160`, `-200` to `160`, and `100` is unchanged. -/
theorem getContinuousError_spec (st st' : PIDState) (error : ℚ) :
    (st.continuous = st'.continuous → st.maximumInput = st'.maximumInput →
      st.minimumInput = st'.minimumInput →
      getContinuousError st error = getContinuousError st' error) ∧
    (st.continuous = false → getContinuousError st error = error) ∧
    (st.continuous = true →
      |error| > (st.maximumInput - st.minimumInput) / 2 →
      getContinuousError st error =
        (if error > 0 then error - (st.maximumInput - st.minimumInput)
         else error + (st.maximumInput - st.minimumInput))) ∧
    (st.continuous = true → st.minimumInput ≤ st.maximumInput →
      |error| > (st.maximumInput - st.minimumInput) / 2 →
      |getContinuousError st error| ≤ |error| ∧
      (getContinuousError st error =
          error - (st.maximumInput - st.minimumInput) ∨
       getContinuousError st error =
          error + (st.maximumInput - st.minimumInput))) ∧
    getContinuousError st360 200 = -160 ∧
    getContinuousError st360 (-200) = 160 ∧
    getContinuousError st360 100 = 100 := by
  refine ⟨?_, ?_, ?_, ?_, ?_, ?_, ?_⟩
  · intro h1 h2 h3
    simp only [getContinuousError, h1, h2, h3]
  · intro h
    simp [getContinuousError, h]
  · intro hc hgt
    exact getContinuousError_wrap st error hc hgt
  · intro hc hrange hgt
    have hR : 0 ≤ st.maximumInput - st.minimumInput := by linarith
    rw [getContinuousError_wrap st error hc hgt]
    by_cases hpos : error > 0
    · rw [if_pos hpos]
      have habs : |error| = error := abs_of_pos hpos
      rw [habs] at hgt
      refine ⟨?_, Or.inl rfl⟩
      rw [habs, abs_le]
      constructor <;> linarith
    · rw [if_neg hpos]
      push_neg at hpos
      have hneg : error < 0 := by
        rcases lt_or_eq_of_le hpos with h | h
        · exact h
        · exfalso
          rw [h] at hgt
          simp at hgt
          linarith
      have habs : |error| = -error := abs_of_neg hneg
      rw [habs] at hgt
      refine ⟨?_, Or.inr rfl⟩
      rw [habs, abs_le]
      constructor <;> linarith
  · rw [getContinuousError_wrap_pos st360 200 rfl (by norm_num)
      (by norm_num [st360, initialState])]
    norm_num [st360, initialState]
  · rw [getContinuousError_wrap_neg st360 (-200) rfl (by norm_num)
      (by norm_num [st360, initialState])]
    norm_num [st360, initialState]
  · rw [getContinuousError, if_neg]
    rw [abs_of_pos (by norm_num : (100:ℚ) > 0)]
    norm_num [st360, initialState]

/-- C2: on an enabled tick with both collaborators attached and valid
output bounds, the value written to the output sink is the stored
result, and both lie within `[outputMin, outputMax]`. -/
theorem calculate_output_bounded (st : PIDState) (srcType : PIDSourceType)
    (input : ℚ) (hb : st.minimumOutput ≤ st.maximumOutput)
    (he : st.enabled = true) :
    (_calculate st true true srcType input).2 =
      some (_calculate st true true srcType input).1.result ∧
    st.minimumOutput ≤ (_calculate st true true srcType input).1.result ∧
    (_calculate st true true srcType input).1.result ≤ st.maximumOutput := by
  cases srcType <;>
    simp only [_calculate, he, Bool.true_eq_false, if_false, bufAppend,
      calculateFeedForward] <;>
    exact ⟨trivial, (clamp_mem _ _ _ hb).1, (clamp_mem _ _ _ hb).2⟩

/-- Witness for C2 at a concrete enabled controller. -/
theorem calculate_output_bounded_witness :
    (_calculate (enable (initialState 1 0 0 0)) true true
        .kDisplacement 0).2 =
      some (_calculate (enable (initialState 1 0 0 0)) true true
        .kDisplacement 0).1.result ∧
    (enable (initialState 1 0 0 0)).minimumOutput ≤
      (_calculate (enable (initialState 1 0 0 0)) true true
        .kDisplacement 0).1.result ∧
    (_calculate (enable (initialState 1 0 0 0)) true true
        .kDisplacement 0).1.result ≤
      (enable (initialState 1 0 0 0)).maximumOutput :=
  calculate_output_bounded (enable (initialState 1 0 0 0)) .kDisplacement 0
    (by norm_num [initialState, enable]) rfl

/-- Witness for C3: the unchanged case at `continuous = false` and the
wrap case on the `[0, 360]` controller. -/
theorem getContinuousError_spec_witness :
    getContinuousError (initialState 1 0 0 0) 5 = 5 ∧
    getContinuousError st360 200 =
      (if (200:ℚ) > 0 then 200 - (st360.maximumInput - st360.minimumInput)
       else 200 + (st360.maximumInput - st360.minimumInput)) :=
  ⟨(getContinuousError_spec (initialState 1 0 0 0)
      (initialState 1 0 0 0) 5).2.1 rfl,
   (getContinuousError_spec st360 st360 200).2.2.1 rfl
     (by rw [abs_of_pos (by norm_num : (200:ℚ) > 0)]
         norm_num [st360, initialState])⟩

/-- An enabled rate-mode controller with `P = 0` and everything else at
its initial value. -/
def rateZeroP : PIDState := enable (initialState 0 0 0 0)

/-- C1 counterexample: on an enabled rate-mode tick with `P = 0`, the
wrap-corrected error is `1` but the integral accumulator stays at `0`
instead of being incremented to `0 + 1` — the code skips the increment
together with the clamp, not only the clamp. -/
theorem calculate_rate_zeroP_counterexample :
    rateZeroP.P = 0 ∧
    getContinuousError rateZeroP (rateZeroP.setpoint - (-1)) = 1 ∧
    rateZeroP.totalError = 0 ∧
    (_calculate rateZeroP true true .kRate (-1)).1.totalError ≠
      rateZeroP.totalError +
        getContinuousError rateZeroP (rateZeroP.setpoint - (-1)) := by
  refine ⟨rfl, ?_, rfl, ?_⟩
  · norm_num [getContinuousError, rateZeroP, enable, initialState]
  · norm_num [_calculate, getContinuousError, rateZeroP, enable,
      initialState, bufAppend, calculateFeedForward]

/-- C1 (amended): on an enabled tick with both collaborators attached:
in rate mode, when `P ≠ 0` the accumulator becomes the wrap-corrected
error added and clamped to `[outputMin/P, outputMax/P]`, and when
`P = 0` it is left entirely unchanged (increment and clamp are both
skipped); the stored result is the output-clamp of
`P*accumulator + D*error + F*setpoint`, and that value is written to
the sink.  In displacement mode, when `I ≠ 0` the accumulator is
incremented and clamped to `[outputMin/I, outputMax/I]`, else left
unchanged; the stored result is the output-clamp of
`P*error + I*accumulator + D*(error - previousError) + feedForward`,
and that value is written to the sink. -/
theorem calculate_tick_formula (st : PIDState) (input : ℚ)
    (he : st.enabled = true) :
    ((_calculate st true true .kRate input).1.totalError =
      (if st.P ≠ 0 then
        clamp (st.totalError + getContinuousError st (st.setpoint - input))
          (st.minimumOutput / st.P) (st.maximumOutput / st.P)
       else st.totalError) ∧
     (_calculate st true true .kRate input).1.result =
      clamp (st.P * (_calculate st true true .kRate input).1.totalError +
          st.D * getContinuousError st (st.setpoint - input) +
          st.F * st.setpoint)
        st.minimumOutput st.maximumOutput ∧
     (_calculate st true true .kRate input).2 =
      some ((_calculate st true true .kRate input).1.result)) ∧
    ((_calculate st true true .kDisplacement input).1.totalError =
      (if st.I ≠ 0 then
        clamp (st.totalError + getContinuousError st (st.setpoint - input))
          (st.minimumOutput / st.I) (st.maximumOutput / st.I)
       else st.totalError) ∧
     (_calculate st true true .kDisplacement input).1.result =
      clamp (st.P * getContinuousError st (st.setpoint - input) +
          st.I * (_calculate st true true .kDisplacement input).1.totalError +
          st.D * (getContinuousError st (st.setpoint - input) - st.prevError) +
          st.F * getDeltaSetpoint st)
        st.minimumOutput st.maximumOutput ∧
     (_calculate st true true .kDisplacement input).2 =
      some ((_calculate st true true .kDisplacement input).1.result)) := by
  simp only [_calculate, he, Bool.true_eq_false, if_false, bufAppend,
    calculateFeedForward]
  constructor
  · by_cases hP : st.P = 0 <;> simp [hP, getDeltaSetpoint]
  · by_cases hI : st.I = 0 <;> simp [hI, getDeltaSetpoint]

/-- Witness for C1 at an enabled controller with unit gains. -/
theorem calculate_tick_formula_witness :
    (_calculate (enable (initialState 1 1 1 0)) true true .kRate 2).1.totalError =
      (if (enable (initialState 1 1 1 0)).P ≠ 0 then
        clamp ((enable (initialState 1 1 1 0)).totalError +
            getContinuousError (enable (initialState 1 1 1 0))
              ((enable (initialState 1 1 1 0)).setpoint - 2))
          ((enable (initialState 1 1 1 0)).minimumOutput /
            (enable (initialState 1 1 1 0)).P)
          ((enable (initialState 1 1 1 0)).maximumOutput /
            (enable (initialState 1 1 1 0)).P)
       else (enable (initialState 1 1 1 0)).totalError) :=
  (calculate_tick_formula (enable (initialState 1 1 1 0)) 2 rfl).1.1

/-- A controller whose error-history buffer holds the samples `1`
(older) and `2` (newer), at capacity `2`. -/
def bufTwo : PIDState :=
  { initialState 1 0 0 0 with buf := [1, 2], bufMaxlen := 2 }

/-- C4 counterexample: resizing the buffer `[1, 2]` to capacity `1`
retains the oldest sample `[1]`, not the newest suffix `[2]` the claim
requires. -/
theorem setToleranceBuffer_keeps_oldest :
    (setToleranceBuffer bufTwo 1).buf = [1] ∧
    bufTwo.buf.drop (bufTwo.buf.length - 1) = [2] ∧
    (setToleranceBuffer bufTwo 1).buf ≠
      bufTwo.buf.drop (bufTwo.buf.length - 1) := by
  refine ⟨rfl, rfl, ?_⟩
  intro h
  have : (1:ℚ) = 2 := List.head_eq_of_cons_eq h
  norm_num at this

/-- C4 (amended): `setToleranceBuffer n` replaces the buffer with one of
capacity `n` holding exactly the oldest `min n (length)` samples already
present, in order (a prefix of the previous contents, so no discarded
history is re-introduced). -/
theorem setToleranceBuffer_spec (st : PIDState) (n : ℕ) :
    (setToleranceBuffer st n).buf = st.buf.take n ∧
    (setToleranceBuffer st n).bufMaxlen = n ∧
    (setToleranceBuffer st n).buf.length = min n st.buf.length ∧
    (setToleranceBuffer st n).buf <+: st.buf :=
  ⟨rfl, rfl, List.length_take _ _, List.take_prefix _ _⟩

/-- Controller with a single error sample `3/10` and absolute tolerance
`1/2`. -/
def tolNear : PIDState :=
  setAbsoluteTolerance { initialState 1 0 0 0 with buf := [3/10] } (1/2)

/-- Controller with a single error sample `7/10` and absolute tolerance
`1/2`. -/
def tolFar : PIDState :=
  setAbsoluteTolerance { initialState 1 0 0 0 with buf := [7/10] } (1/2)

/-- C5: `onTarget` with no tolerance installed raises the usage error;
after `setAbsoluteTolerance t` it returns true iff a sample exists and
`|avgError| < t`; after `setPercentTolerance p` likewise against
`p/100 * (inputMax - inputMin)`; with tolerance `1/2` an average error
of `3/10` is on target and `7/10` is not. -/
theorem onTarget_spec (st : PIDState) (t p : ℚ) :
    (st.tolerance = .unset →
      onTarget st =
        .error "No tolerance value set when using PIDController.onTarget()") ∧
    (onTarget (setAbsoluteTolerance st t) = .ok true ↔
      st.buf ≠ [] ∧ |getAvgError st| < t) ∧
    (onTarget (setPercentTolerance st p) = .ok true ↔
      st.buf ≠ [] ∧
        |getAvgError st| < p / 100 * (st.maximumInput - st.minimumInput)) ∧
    onTarget tolNear = .ok true ∧
    onTarget tolFar = .ok false := by
  refine ⟨?_, ?_, ?_, ?_, ?_⟩
  · intro h
    simp [onTarget, h]
  · simp [onTarget, setAbsoluteTolerance, isAvgErrorValid, getAvgError,
      List.length_eq_zero]
  · simp [onTarget, setPercentTolerance, isAvgErrorValid, getAvgError,
      List.length_eq_zero]
  · simp [onTarget, tolNear, setAbsoluteTolerance, isAvgErrorValid,
      getAvgError, initialState]
    rw [abs_of_pos] <;> norm_num
  · simp [onTarget, tolFar, setAbsoluteTolerance, isAvgErrorValid,
      getAvgError, initialState]
    rw [abs_of_pos] <;> norm_num

/-- Witness for C5: a freshly constructed controller has no tolerance
installed, so `onTarget` raises. -/
theorem onTarget_spec_witness :
    onTarget (initialState 1 0 0 0) =
      .error "No tolerance value set when using PIDController.onTarget()" :=
  (onTarget_spec (initialState 1 0 0 0) 1 1).1 rfl

/-- C6: `setInputRange` and `setOutputRange` raise the configuration
error when the lower bound exceeds the upper one — the raise precedes
every assignment in the source, so no state (bounds included) changes —
and update the corresponding bounds when the bounds are ordered. -/
theorem setRanges_spec (st : PIDState) (lo hi : ℚ) :
    (lo > hi → setInputRange st lo hi =
      .error "Lower bound is greater than upper bound") ∧
    (lo > hi → setOutputRange st lo hi =
      .error "Lower bound is greater than upper bound") ∧
    (lo ≤ hi → ∃ st', setInputRange st lo hi = .ok st' ∧
      st'.minimumInput = lo ∧ st'.maximumInput = hi) ∧
    (lo ≤ hi → setOutputRange st lo hi =
      .ok { st with minimumOutput := lo, maximumOutput := hi }) := by
  refine ⟨?_, ?_, ?_, ?_⟩
  · intro h
    rw [setInputRange, if_pos h]
  · intro h
    rw [setOutputRange, if_pos h]
  · intro h
    rw [setInputRange, if_neg (not_lt.mpr h)]
    exact ⟨_, rfl, rfl, rfl⟩
  · intro h
    rw [setOutputRange, if_neg (not_lt.mpr h)]

/-- Witness for C6 at the bounds `(1, 0)` (rejected) and `(0, 1)`
(accepted). -/
theorem setRanges_spec_witness :
    setInputRange (initialState 1 0 0 0) 1 0 =
      .error "Lower bound is greater than upper bound" ∧
    setOutputRange (initialState 1 0 0 0) 0 1 =
      .ok { initialState 1 0 0 0 with
              minimumOutput := 0, maximumOutput := 1 } :=
  ⟨(setRanges_spec (initialState 1 0 0 0) 1 0).1 (by norm_num),
   (setRanges_spec (initialState 1 0 0 0) 0 1).2.2.2 (by norm_num)⟩

/-- C7: displacement-mode feed-forward is
`F * (setpoint - prevSetpoint) / elapsed` when the elapsed time since
the last setpoint change is nonzero and exactly `0` when it is zero
(the division is never evaluated then); every displacement-mode
evaluation also sets `prevSetpoint` to the current setpoint and resets
the setpoint-change timer; rate-mode feed-forward is `F * setpoint`
with the state untouched. -/
theorem calculateFeedForward_spec (st : PIDState) :
    (st.setpointTimer ≠ 0 →
      (calculateFeedForward st .kDisplacement).1 =
        st.F * (st.setpoint - st.prevSetpoint) / st.setpointTimer) ∧
    (st.setpointTimer = 0 →
      (calculateFeedForward st .kDisplacement).1 = 0) ∧
    (calculateFeedForward st .kDisplacement).2 =
      { st with prevSetpoint := st.setpoint, setpointTimer := 0 } ∧
    (calculateFeedForward st .kRate).1 = st.F * st.setpoint ∧
    (calculateFeedForward st .kRate).2 = st := by
  refine ⟨?_, ?_, rfl, rfl, rfl⟩
  · intro h
    simp [calculateFeedForward, getDeltaSetpoint, h, mul_div_assoc]
  · intro h
    simp [calculateFeedForward, getDeltaSetpoint, h]

/-- A controller two time-units after a setpoint change from `1` to
`5`, with `F = 2`. -/
def ffSt : PIDState :=
  { initialState 1 0 0 2 with
      setpoint := 5, prevSetpoint := 1, setpointTimer := 2 }

/-- Witness for C7: the nonzero-elapsed and the zero-elapsed case at
concrete controllers. -/
theorem calculateFeedForward_spec_witness :
    (calculateFeedForward ffSt .kDisplacement).1 =
      ffSt.F * (ffSt.setpoint - ffSt.prevSetpoint) / ffSt.setpointTimer ∧
    (calculateFeedForward (initialState 1 0 0 2) .kDisplacement).1 = 0 :=
  ⟨(calculateFeedForward_spec ffSt).1 (by norm_num [ffSt, initialState]),
   (calculateFeedForward_spec (initialState 1 0 0 2)).2.1 rfl⟩

/-- C8: `setSetpoint v` stores `v` clamped into
`[inputMin, inputMax]` when `inputMax > inputMin` and unchanged
otherwise, and in every case empties the error history (invalidating
the rolling average) and zeroes the integral accumulator. -/
theorem setSetpoint_spec (st : PIDState) (v : ℚ) :
    (st.maximumInput > st.minimumInput →
      (setSetpoint st v).setpoint = clamp v st.minimumInput st.maximumInput) ∧
    (¬ st.maximumInput > st.minimumInput →
      (setSetpoint st v).setpoint = v) ∧
    (setSetpoint st v).buf = [] ∧
    isAvgErrorValid (setSetpoint st v) = false ∧
    (setSetpoint st v).totalError = 0 := by
  refine ⟨?_, ?_, rfl, rfl, rfl⟩
  · intro h
    simp only [setSetpoint, clamp, max_def, min_def]
    split_ifs <;> linarith
  · intro h
    simp only [setSetpoint]
    rw [if_neg h]

/-- Witness for C8: clamping into `[0, 10]` and the degenerate-range
case at concrete controllers. -/
theorem setSetpoint_spec_witness :
    (setSetpoint { initialState 1 0 0 0 with
        minimumInput := 0, maximumInput := 10 } 42).setpoint =
      clamp 42 ({ initialState 1 0 0 0 with
        minimumInput := 0, maximumInput := 10 } : PIDState).minimumInput
        ({ initialState 1 0 0 0 with
        minimumInput := 0, maximumInput := 10 } : PIDState).maximumInput ∧
    (setSetpoint (initialState 1 0 0 0) 42).setpoint = 42 :=
  ⟨(setSetpoint_spec { initialState 1 0 0 0 with
      minimumInput := 0, maximumInput := 10 } 42).1
      (by norm_num [initialState]),
   (setSetpoint_spec (initialState 1 0 0 0) 42).2.1
      (by norm_num [initialState])⟩

/-- C9: `disable` performs exactly one zero write to the sink and marks
the controller disabled, leaving everything else untouched, whatever the
prior enabled state; `reset` performs that disable and then zeroes
`prevError`, the integral accumulator and the last result, leaving the
error-history buffer unchanged. -/
theorem disable_reset_spec (st : PIDState) :
    (disable st).2 = [0] ∧
    (disable st).1 = { st with enabled := false } ∧
    (reset st).2 = [0] ∧
    (reset st).1 =
      { st with enabled := false, prevError := 0, totalError := 0,
                result := 0 } ∧
    (reset st).1.buf = st.buf :=
  ⟨rfl, rfl, rfl, rfl, rfl⟩

/-- A controller with a non-empty error history. -/
def histSt : PIDState := { initialState 1 0 0 0 with buf := [5] }

/-- C10: every successful `setInputRange` call re-applies the current
setpoint through `setSetpoint`, so it empties the error history, zeroes
the integral accumulator and invalidates the rolling-average error. -/
theorem setInputRange_clears_history (st : PIDState) (lo hi : ℚ)
    (h : lo ≤ hi) :
    ∃ st', setInputRange st lo hi = .ok st' ∧ st'.buf = [] ∧
      st'.totalError = 0 ∧ isAvgErrorValid st' = false := by
  rw [setInputRange, if_neg (not_lt.mpr h)]
  exact ⟨_, rfl, rfl, rfl, rfl⟩

/-- Witness for C10 at a controller whose history holds a sample. -/
theorem setInputRange_clears_history_witness :
    ∃ st', setInputRange histSt 0 10 = .ok st' ∧ st'.buf = [] ∧
      st'.totalError = 0 ∧ isAvgErrorValid st' = false :=
  setInputRange_clears_history histSt 0 10 (by norm_num)
